import Mathlib

/-!
Shallow embedding of the configuration data model of the hydra-flyte
repository, following `src/app/structs.py` (the variant with full
validation; `src/flyte_hydra/structs.py` carries identical constraints
with `Structure` named `Schema`).

Modelling choices:
* Python `str` becomes `String`, Python `int` (unbounded) becomes `Int`.
* `learning_rate` is a Python `float` constrained by `gt=0.0, lt=1.0`;
  comparison of any finite float against the exactly representable
  bounds 0.0 and 1.0 agrees with exact rational comparison of the value
  it denotes, so the field is embedded as `Rat`.
* pydantic validates every field independently and aggregates all
  field-level errors; the `model_validator(mode="after")` hook
  (`check_complexity`) runs only when no field-level error occurred.
  Construction is embedded as a function into `Except (List VError) _`.
-/

namespace HydraFlyte

/-- Error taxonomy of construction-time validation failures. -/
inductive VError where
  | missingField (path : String)
  | typeMismatch (field : String)
  | constraintViolation (field : String)
  | invalidEnumValue (field : String)
  | complexityViolation (msg : String)
deriving Repr, DecidableEq

/-- `Connection` from `src/app/structs.py` lines 6-12. -/
structure Connection where
  driver : String
  username : String
  password : String
  host : String
  port : Int
  database : String
deriving Repr, DecidableEq

/-- `Column` from `src/app/structs.py` lines 14-17. -/
structure Column where
  name : String
  type : String
  description : String
deriving Repr, DecidableEq

/-- `Structure` from `src/app/structs.py` lines 19-21
(named `Schema` in `src/flyte_hydra/structs.py` lines 22-25). -/
structure Structure where
  target : Column
  features : List Column
deriving Repr, DecidableEq

/-- `Loss` from `src/app/structs.py` lines 23-28: a `StrEnum` with
exactly four members. -/
inductive Loss where
  | squared_error
  | absolute_error
  | huber
  | quantile
deriving Repr, DecidableEq

/-- The textual value backing each `Loss` member. -/
def Loss.value : Loss → String
  | .squared_error => "squared_error"
  | .absolute_error => "absolute_error"
  | .huber => "huber"
  | .quantile => "quantile"

/-- Coercing a string to the `Loss` enum: succeeds exactly on the four
member values (case-sensitive exact match), as pydantic does for an
enum-typed field. -/
def Loss.ofString (s : String) : Option Loss :=
  if s = "squared_error" then some .squared_error
  else if s = "absolute_error" then some .absolute_error
  else if s = "huber" then some .huber
  else if s = "quantile" then some .quantile
  else none

/-- `Hyperparameters` from `src/app/structs.py` lines 30-35: the typed
fields of a successfully constructed value. -/
structure Hyperparameters where
  loss : Loss
  learning_rate : Rat
  n_estimators : Int
  max_depth : Int
  min_samples_split : Int
deriving Repr, DecidableEq

/-- The raw field values handed to `Hyperparameters(...)` before
validation. -/
structure RawHyperparameters where
  loss : String
  learning_rate : Rat
  n_estimators : Int
  max_depth : Int
  min_samples_split : Int
deriving Repr, DecidableEq

/-- Field-level errors of the `loss` field (`loss: Loss`). -/
def lossErrors (s : String) : List VError :=
  if (Loss.ofString s).isSome then [] else [VError.invalidEnumValue "loss"]

/-- Field-level errors of `learning_rate` (`Field(gt=0.0, lt=1.0)`). -/
def learningRateErrors (x : Rat) : List VError :=
  if 0 < x ∧ x < 1 then [] else [VError.constraintViolation "learning_rate"]

/-- Field-level errors of an integer field annotated `Field(ge=1)`. -/
def geOneErrors (field : String) (x : Int) : List VError :=
  if 1 ≤ x then [] else [VError.constraintViolation field]

/-- All field-level errors of a raw `Hyperparameters` input, in field
declaration order, as pydantic aggregates them. -/
def fieldErrors (r : RawHyperparameters) : List VError :=
  lossErrors r.loss ++ learningRateErrors r.learning_rate ++
    geOneErrors "n_estimators" r.n_estimators ++
    geOneErrors "max_depth" r.max_depth ++
    geOneErrors "min_samples_split" r.min_samples_split

/-- The assertion message of `check_complexity`
(`src/app/structs.py` line 41). -/
def complexityMessage : String := "the model is not complex enough"

/-- `Hyperparameters.check_complexity` (`src/app/structs.py` lines
37-43): asserts `max_depth + n_estimators >= 4` and returns `self`
unchanged. -/
def Hyperparameters.checkComplexity (h : Hyperparameters) :
    Except (List VError) Hyperparameters :=
  if 4 ≤ h.max_depth + h.n_estimators then .ok h
  else .error [VError.complexityViolation complexityMessage]

/-- Construction of `Hyperparameters`: pydantic first validates every
field independently, aggregating all field-level errors; only when none
occurred does the `mode="after"` model validator `check_complexity`
run on the constructed value. -/
def mkHyperparameters (r : RawHyperparameters) :
    Except (List VError) Hyperparameters :=
  match Loss.ofString r.loss with
  | some l =>
      if fieldErrors r = [] then
        Hyperparameters.checkComplexity
          ⟨l, r.learning_rate, r.n_estimators, r.max_depth,
            r.min_samples_split⟩
      else .error (fieldErrors r)
  | none => .error (fieldErrors r)

/-- Construction of `Structure`: both fields are already-typed values
and the class declares no validator, so construction always succeeds. -/
def mkStructure (target : Column) (features : List Column) :
    Except (List VError) Structure :=
  .ok ⟨target, features⟩

/-- `Configuration` from `src/app/structs.py` lines 46-49. -/
structure Configuration where
  connection : Connection
  «structure» : Structure
  hyperparameters : Hyperparameters
deriving Repr, DecidableEq

/-- The raw input of `Configuration(...)`: `Connection`, `Column` and
`Structure` carry only typed fields with no extra constraints, so the
raw form differs from the validated one only at `Hyperparameters`. -/
structure RawConfiguration where
  connection : Connection
  «structure» : Structure
  hyperparameters : RawHyperparameters
deriving Repr, DecidableEq

/-- Construction of `Configuration`: validates the nested
`Hyperparameters` and assembles the aggregate. -/
def mkConfiguration (r : RawConfiguration) :
    Except (List VError) Configuration :=
  match mkHyperparameters r.hyperparameters with
  | .ok h => .ok ⟨r.connection, r.«structure», h⟩
  | .error e => .error e

/-- All individual field constraints of a raw `Hyperparameters` input
hold. -/
def FieldsValid (r : RawHyperparameters) : Prop :=
  (Loss.ofString r.loss).isSome ∧ 0 < r.learning_rate ∧
    r.learning_rate < 1 ∧ 1 ≤ r.n_estimators ∧ 1 ≤ r.max_depth ∧
    1 ≤ r.min_samples_split

instance (r : RawHyperparameters) : Decidable (FieldsValid r) := by
  unfold FieldsValid; infer_instance

/-! ## Helper lemmas -/

lemma Loss.value_ofString {s : String} {l : Loss}
    (h : Loss.ofString s = some l) : l.value = s := by
  unfold Loss.ofString at h
  split_ifs at h <;> cases h <;> simp_all [Loss.value]

lemma fieldErrors_nil_iff (r : RawHyperparameters) :
    fieldErrors r = [] ↔ FieldsValid r := by
  unfold fieldErrors lossErrors learningRateErrors geOneErrors FieldsValid
  split_ifs <;> simp_all

lemma complexity_notMem_fieldErrors (r : RawHyperparameters) (m : String) :
    VError.complexityViolation m ∉ fieldErrors r := by
  unfold fieldErrors lossErrors learningRateErrors geOneErrors
  split_ifs <;> simp

lemma mkHyperparameters_error_of_invalid (r : RawHyperparameters)
    (hf : ¬ FieldsValid r) :
    mkHyperparameters r = .error (fieldErrors r) := by
  have hne : fieldErrors r ≠ [] := fun h => hf ((fieldErrors_nil_iff r).mp h)
  unfold mkHyperparameters
  split
  · rw [if_neg hne]
  · rfl

lemma mkHyperparameters_of_valid (r : RawHyperparameters)
    (hf : FieldsValid r) :
    ∃ l, Loss.ofString r.loss = some l ∧
      mkHyperparameters r = Hyperparameters.checkComplexity
        ⟨l, r.learning_rate, r.n_estimators, r.max_depth,
          r.min_samples_split⟩ := by
  obtain ⟨l, hl⟩ := Option.isSome_iff_exists.mp hf.1
  refine ⟨l, hl, ?_⟩
  unfold mkHyperparameters
  split
  · next l' hl' =>
      rw [hl] at hl'
      cases hl'
      rw [if_pos ((fieldErrors_nil_iff r).mpr hf)]
  · next hnone =>
      rw [hl] at hnone
      exact Option.noConfusion hnone

lemma mkHyperparameters_ok_iff (r : RawHyperparameters) :
    (∃ h, mkHyperparameters r = .ok h) ↔
      FieldsValid r ∧ 4 ≤ r.max_depth + r.n_estimators := by
  constructor
  · rintro ⟨h, hok⟩
    by_cases hf : FieldsValid r
    · obtain ⟨l, _, hmk⟩ := mkHyperparameters_of_valid r hf
      rw [hmk] at hok
      unfold Hyperparameters.checkComplexity at hok
      split_ifs at hok with hc
      exact ⟨hf, hc⟩
    · rw [mkHyperparameters_error_of_invalid r hf] at hok
      exact Except.noConfusion hok
  · rintro ⟨hf, hsum⟩
    obtain ⟨l, _, hmk⟩ := mkHyperparameters_of_valid r hf
    refine ⟨⟨l, r.learning_rate, r.n_estimators, r.max_depth,
      r.min_samples_split⟩, ?_⟩
    rw [hmk]
    unfold Hyperparameters.checkComplexity
    rw [if_pos hsum]

/-! ## Claims -/

/-- C1: for every `Hyperparameters` input whose fields each satisfy their
individual constraints, construction fails with a `ComplexityViolation`
if and only if `max_depth + n_estimators < 4`. -/
theorem complexity_failure_iff (r : RawHyperparameters)
    (hf : FieldsValid r) :
    (∃ m, mkHyperparameters r = .error [VError.complexityViolation m]) ↔
      r.max_depth + r.n_estimators < 4 := by
  obtain ⟨l, _, hmk⟩ := mkHyperparameters_of_valid r hf
  rw [hmk]
  unfold Hyperparameters.checkComplexity
  dsimp only
  split_ifs with hc
  · constructor
    · rintro ⟨m, hm⟩
      exact hm.elim
    · intro hlt
      omega
  · constructor
    · intro _
      omega
    · intro _
      exact ⟨complexityMessage, rfl⟩

/-- Witness for C1 at the boundary: `max_depth=1, n_estimators=2`
(sum 3) fails with a `ComplexityViolation` while `max_depth=1,
n_estimators=3` (sum 4) succeeds. -/
theorem complexity_failure_iff_witness :
    (∃ m, mkHyperparameters ⟨"huber", mkRat 1 2, 2, 1, 1⟩ =
      .error [VError.complexityViolation m]) ∧
    mkHyperparameters ⟨"huber", mkRat 1 2, 3, 1, 1⟩ =
      .ok ⟨.huber, mkRat 1 2, 3, 1, 1⟩ :=
  ⟨(complexity_failure_iff ⟨"huber", mkRat 1 2, 2, 1, 1⟩
      (by decide)).mpr (by decide),
   by rfl⟩

/-- C2: for every input whose fields all satisfy their individual
constraints and whose `max_depth + n_estimators` is at least 4,
`Configuration` construction succeeds and every field of the result
equals the corresponding input field (the `loss` field being the enum
member backed by the input token). -/
theorem valid_construction_roundtrip (r : RawConfiguration)
    (hf : FieldsValid r.hyperparameters)
    (hsum : 4 ≤ r.hyperparameters.max_depth +
      r.hyperparameters.n_estimators) :
    ∃ l, Loss.ofString r.hyperparameters.loss = some l ∧
      l.value = r.hyperparameters.loss ∧
      mkConfiguration r = .ok ⟨r.connection, r.«structure»,
        ⟨l, r.hyperparameters.learning_rate,
          r.hyperparameters.n_estimators, r.hyperparameters.max_depth,
          r.hyperparameters.min_samples_split⟩⟩ := by
  obtain ⟨l, hl, hmk⟩ := mkHyperparameters_of_valid r.hyperparameters hf
  refine ⟨l, hl, Loss.value_ofString hl, ?_⟩
  unfold mkConfiguration
  rw [hmk]
  unfold Hyperparameters.checkComplexity
  dsimp only
  rw [if_pos hsum]

/-- Witness for C2 at the end-to-end scenario of the spec. -/
theorem valid_construction_roundtrip_witness :
    ∃ l, Loss.ofString "huber" = some l ∧ l.value = "huber" ∧
      mkConfiguration ⟨⟨"postgres", "u", "p", "h", 5432, "db"⟩,
        ⟨⟨"y", "float", "label"⟩, [⟨"x1", "float", "feat1"⟩]⟩,
        ⟨"huber", mkRat 1 10, 3, 2, 1⟩⟩ =
      .ok ⟨⟨"postgres", "u", "p", "h", 5432, "db"⟩,
        ⟨⟨"y", "float", "label"⟩, [⟨"x1", "float", "feat1"⟩]⟩,
        ⟨l, mkRat 1 10, 3, 2, 1⟩⟩ :=
  valid_construction_roundtrip
    ⟨⟨"postgres", "u", "p", "h", 5432, "db"⟩,
      ⟨⟨"y", "float", "label"⟩, [⟨"x1", "float", "feat1"⟩]⟩,
      ⟨"huber", mkRat 1 10, 3, 2, 1⟩⟩ (by decide) (by decide)

/-- C3: for every input with `learning_rate ≤ 0` or `≥ 1`, construction
fails and the reported errors include a `ConstraintViolation` on
`learning_rate`; the interval is open at both ends. -/
theorem learning_rate_out_of_range_rejected (r : RawHyperparameters)
    (h : r.learning_rate ≤ 0 ∨ 1 ≤ r.learning_rate) :
    ∃ errs, mkHyperparameters r = .error errs ∧
      VError.constraintViolation "learning_rate" ∈ errs := by
  have hnv : ¬ (0 < r.learning_rate ∧ r.learning_rate < 1) := by
    rcases h with h | h
    · exact fun hc => absurd hc.1 (not_lt.mpr h)
    · exact fun hc => absurd hc.2 (not_lt.mpr h)
  have hf : ¬ FieldsValid r := fun hv => hnv ⟨hv.2.1, hv.2.2.1⟩
  refine ⟨fieldErrors r, mkHyperparameters_error_of_invalid r hf, ?_⟩
  unfold fieldErrors learningRateErrors
  rw [if_neg hnv]
  simp

/-- Witness for C3: the boundary values 0 and 1 both fail on
`learning_rate` while 1/2 succeeds. -/
theorem learning_rate_out_of_range_rejected_witness :
    (∃ errs, mkHyperparameters ⟨"huber", 0, 3, 2, 1⟩ = .error errs ∧
      VError.constraintViolation "learning_rate" ∈ errs) ∧
    (∃ errs, mkHyperparameters ⟨"huber", 1, 3, 2, 1⟩ = .error errs ∧
      VError.constraintViolation "learning_rate" ∈ errs) ∧
    mkHyperparameters ⟨"huber", mkRat 1 2, 3, 2, 1⟩ =
      .ok ⟨.huber, mkRat 1 2, 3, 2, 1⟩ :=
  ⟨learning_rate_out_of_range_rejected ⟨"huber", 0, 3, 2, 1⟩
      (Or.inl (by decide)),
   learning_rate_out_of_range_rejected ⟨"huber", 1, 3, 2, 1⟩
      (Or.inr (by decide)),
   by rfl⟩

/-- C4: a `loss` value outside the four enumeration tokens makes
construction fail with an `InvalidEnumValue` on `loss`, and each of the
four tokens is accepted by the enum coercion. -/
theorem loss_enum_exact_match :
    (∀ r : RawHyperparameters, Loss.ofString r.loss = none →
      ∃ errs, mkHyperparameters r = .error errs ∧
        VError.invalidEnumValue "loss" ∈ errs) ∧
    ∀ l : Loss, Loss.ofString l.value = some l := by
  constructor
  · intro r hnone
    have hf : ¬ FieldsValid r := fun hv =>
      absurd hv.1 (by rw [hnone]; simp)
    refine ⟨fieldErrors r, mkHyperparameters_error_of_invalid r hf, ?_⟩
    unfold fieldErrors lossErrors
    rw [hnone]
    simp
  · intro l
    cases l <;> rfl

/-- Witness for C4: the scikit-learn token `log_loss` is not one of the
four members and is rejected with an `InvalidEnumValue` on `loss`. -/
theorem loss_enum_exact_match_witness :
    ∃ errs, mkHyperparameters ⟨"log_loss", mkRat 1 2, 3, 2, 1⟩ =
      .error errs ∧ VError.invalidEnumValue "loss" ∈ errs :=
  loss_enum_exact_match.1 ⟨"log_loss", mkRat 1 2, 3, 2, 1⟩ (by rfl)

/-- C5: when at least one field violates its individual constraint,
construction reports exactly the (nonempty) field-level errors and never
a `ComplexityViolation`, the cross-field rule being evaluated only after
all field-level validations succeed. -/
theorem field_errors_precede_complexity (r : RawHyperparameters)
    (hf : ¬ FieldsValid r) :
    ∃ errs, mkHyperparameters r = .error errs ∧ errs ≠ [] ∧
      ∀ m, VError.complexityViolation m ∉ errs := by
  refine ⟨fieldErrors r, mkHyperparameters_error_of_invalid r hf,
    ?_, complexity_notMem_fieldErrors r⟩
  exact fun h => hf ((fieldErrors_nil_iff r).mp h)

/-- Witness for C5: an invalid `loss` together with
`max_depth + n_estimators = 2 < 4` yields only field-level errors,
no `ComplexityViolation`. -/
theorem field_errors_precede_complexity_witness :
    ∃ errs, mkHyperparameters ⟨"bogus", mkRat 1 2, 1, 1, 1⟩ =
      .error errs ∧ errs ≠ [] ∧
      ∀ m, VError.complexityViolation m ∉ errs :=
  field_errors_precede_complexity ⟨"bogus", mkRat 1 2, 1, 1, 1⟩
    (by decide)

/-- C6 counterexample: at `max_depth=1, n_estimators=1` (sum 2) the
complexity failure carries the fixed message
`the model is not complex enough`, which contains no digit at all and in
particular names neither the computed sum 2 nor the threshold 4. -/
theorem complexity_message_lacks_numbers :
    mkHyperparameters ⟨"huber", mkRat 1 2, 1, 1, 1⟩ =
      .error [VError.complexityViolation complexityMessage] ∧
    ('2' ∈ complexityMessage.data → False) ∧
    ('4' ∈ complexityMessage.data → False) ∧
    complexityMessage.data.all (fun c => !c.isDigit) = true :=
  ⟨by rfl, by decide, by decide, by decide⟩

/-- C6 amended: when construction fails the complexity check, the error
is a `ComplexityViolation` whose message is the fixed string
`the model is not complex enough`, naming neither the computed sum nor
the threshold. -/
theorem complexity_message_fixed (r : RawHyperparameters)
    (hf : FieldsValid r) (hsum : r.max_depth + r.n_estimators < 4) :
    mkHyperparameters r =
      .error [VError.complexityViolation complexityMessage] := by
  obtain ⟨l, _, hmk⟩ := mkHyperparameters_of_valid r hf
  rw [hmk]
  unfold Hyperparameters.checkComplexity
  dsimp only
  rw [if_neg (by omega)]

/-- Witness for the amended C6 at `max_depth=1, n_estimators=2`. -/
theorem complexity_message_fixed_witness :
    mkHyperparameters ⟨"quantile", mkRat 3 4, 2, 1, 1⟩ =
      .error [VError.complexityViolation complexityMessage] :=
  complexity_message_fixed ⟨"quantile", mkRat 3 4, 2, 1, 1⟩
    (by decide) (by decide)

/-- C7: entities are immutable value objects: the only operation the
source applies to a constructed entity after construction,
`check_complexity`, returns its argument with every field unchanged
(and all other construction functions in this file are pure). -/
theorem checkComplexity_preserves_fields (h h' : Hyperparameters)
    (hk : Hyperparameters.checkComplexity h = .ok h') :
    h'.loss = h.loss ∧ h'.learning_rate = h.learning_rate ∧
      h'.n_estimators = h.n_estimators ∧ h'.max_depth = h.max_depth ∧
      h'.min_samples_split = h.min_samples_split := by
  unfold Hyperparameters.checkComplexity at hk
  split_ifs at hk
  injection hk with heq
  subst heq
  exact ⟨rfl, rfl, rfl, rfl, rfl⟩

/-- Witness for C7 at a concrete valid `Hyperparameters` value. -/
theorem checkComplexity_preserves_fields_witness :
    (⟨.huber, mkRat 1 2, 3, 2, 1⟩ : Hyperparameters).loss =
        Loss.huber ∧
      (⟨.huber, mkRat 1 2, 3, 2, 1⟩ : Hyperparameters).learning_rate =
        mkRat 1 2 ∧
      (⟨.huber, mkRat 1 2, 3, 2, 1⟩ : Hyperparameters).n_estimators =
        3 ∧
      (⟨.huber, mkRat 1 2, 3, 2, 1⟩ : Hyperparameters).max_depth = 2 ∧
      Hyperparameters.min_samples_split
        ⟨.huber, mkRat 1 2, 3, 2, 1⟩ = 1 :=
  checkComplexity_preserves_fields ⟨.huber, mkRat 1 2, 3, 2, 1⟩
    ⟨.huber, mkRat 1 2, 3, 2, 1⟩ (by rfl)

/-- C8: no uniqueness constraint on column names: `Structure`
construction succeeds even when the features list repeats a name or
reuses the target's name. -/
theorem duplicate_column_names_accepted (t : Column) (fs : List Column)
    (hdup : ¬ (fs.map Column.name).Nodup ∨ t.name ∈ fs.map Column.name) :
    mkStructure t fs = .ok ⟨t, fs⟩ := by
  cases hdup <;> rfl

/-- Witness for C8: two feature columns both named `x`. -/
theorem duplicate_column_names_accepted_witness :
    mkStructure ⟨"y", "float", "label"⟩
      [⟨"x", "float", "a"⟩, ⟨"x", "int", "b"⟩] =
      .ok ⟨⟨"y", "float", "label"⟩,
        [⟨"x", "float", "a"⟩, ⟨"x", "int", "b"⟩]⟩ :=
  duplicate_column_names_accepted ⟨"y", "float", "label"⟩
    [⟨"x", "float", "a"⟩, ⟨"x", "int", "b"⟩] (Or.inl (by decide))

/-- C9: an empty features list is accepted: with any connection, target
and valid hyperparameters, `Configuration` construction succeeds when
`features = []`. -/
theorem empty_features_accepted (conn : Connection) (t : Column)
    (rh : RawHyperparameters) (hf : FieldsValid rh)
    (hsum : 4 ≤ rh.max_depth + rh.n_estimators) :
    mkStructure t [] = .ok ⟨t, []⟩ ∧
      ∃ h, mkConfiguration ⟨conn, ⟨t, []⟩, rh⟩ =
        .ok ⟨conn, ⟨t, []⟩, h⟩ := by
  refine ⟨rfl, ?_⟩
  obtain ⟨l, _, hmk⟩ := mkHyperparameters_of_valid rh hf
  refine ⟨⟨l, rh.learning_rate, rh.n_estimators, rh.max_depth,
    rh.min_samples_split⟩, ?_⟩
  unfold mkConfiguration
  dsimp only
  rw [hmk]
  unfold Hyperparameters.checkComplexity
  dsimp only
  rw [if_pos hsum]

/-- Witness for C9 with a concrete connection, target and valid
hyperparameters. -/
theorem empty_features_accepted_witness :
    mkStructure ⟨"y", "float", "label"⟩ [] =
      .ok ⟨⟨"y", "float", "label"⟩, []⟩ ∧
    ∃ h, mkConfiguration ⟨⟨"postgres", "u", "p", "h", 5432, "db"⟩,
        ⟨⟨"y", "float", "label"⟩, []⟩,
        ⟨"huber", mkRat 1 10, 3, 2, 1⟩⟩ =
      .ok ⟨⟨"postgres", "u", "p", "h", 5432, "db"⟩,
        ⟨⟨"y", "float", "label"⟩, []⟩, h⟩ :=
  empty_features_accepted ⟨"postgres", "u", "p", "h", 5432, "db"⟩
    ⟨"y", "float", "label"⟩ ⟨"huber", mkRat 1 10, 3, 2, 1⟩
    (by decide) (by decide)

/-- C10: the outcome of `Hyperparameters` construction does not depend
on `min_samples_split`: two inputs identical except for their
`min_samples_split` values (both at least 1) succeed or fail together. -/
theorem min_samples_split_independence (r1 r2 : RawHyperparameters)
    (hloss : r1.loss = r2.loss)
    (hlr : r1.learning_rate = r2.learning_rate)
    (hne : r1.n_estimators = r2.n_estimators)
    (hmd : r1.max_depth = r2.max_depth)
    (h1 : 1 ≤ r1.min_samples_split) (h2 : 1 ≤ r2.min_samples_split) :
    ((∃ h, mkHyperparameters r1 = .ok h) ↔
      ∃ h, mkHyperparameters r2 = .ok h) := by
  rw [mkHyperparameters_ok_iff, mkHyperparameters_ok_iff]
  unfold FieldsValid
  rw [hloss, hlr, hne, hmd]
  constructor
  · rintro ⟨⟨a, b, c, d, e, _⟩, hs⟩
    exact ⟨⟨a, b, c, d, e, h2⟩, hs⟩
  · rintro ⟨⟨a, b, c, d, e, _⟩, hs⟩
    exact ⟨⟨a, b, c, d, e, h1⟩, hs⟩

/-- Witness for C10 with `min_samples_split` 1 versus 7. -/
theorem min_samples_split_independence_witness :
    ((∃ h, mkHyperparameters ⟨"huber", mkRat 1 2, 3, 2, 1⟩ = .ok h) ↔
      ∃ h, mkHyperparameters ⟨"huber", mkRat 1 2, 3, 2, 7⟩ = .ok h) :=
  min_samples_split_independence ⟨"huber", mkRat 1 2, 3, 2, 1⟩
    ⟨"huber", mkRat 1 2, 3, 2, 7⟩ rfl rfl rfl rfl
    (by decide) (by decide)

end HydraFlyte
